import Mathlib

/-!
Shallow embedding of the i.MXRT10xx target driver (src/target/imxrt.c) of the
Black Magic Debug project, together with proofs of the specified properties of
its FlexSPI command sequencer, controller state guard, transfer primitives,
boot-source classifier and mass-erase orchestrator.

Machine integers are modelled as Nat with explicit masking where the C code
masks; registers of the FlexSPI controller are modelled as explicit record
fields; each remote register write performed over the debug transport is also
recorded in an event log so that ordering properties can be stated.
-/

namespace Imxrt

/-! Register addresses and bit-level constants, transcribed from imxrt.c. -/

def IMXRT_FLEXSPI_BASE : Nat := 0x60000000

def IMXRT_FLEXSPI1_BASE : Nat := 0x402a8000

def IMXRT_FLEXSPI1_MOD_CTRL0 : Nat := IMXRT_FLEXSPI1_BASE + 0x000

def IMXRT_FLEXSPI1_INT : Nat := IMXRT_FLEXSPI1_BASE + 0x014

def IMXRT_FLEXSPI1_LUT_KEY : Nat := IMXRT_FLEXSPI1_BASE + 0x018

def IMXRT_FLEXSPI1_LUT_CTRL : Nat := IMXRT_FLEXSPI1_BASE + 0x01c

def IMXRT_FLEXSPI1_CTRL1 : Nat := IMXRT_FLEXSPI1_BASE + 0x070

def IMXRT_FLEXSPI1_PRG_CTRL0 : Nat := IMXRT_FLEXSPI1_BASE + 0x0a0

def IMXRT_FLEXSPI1_PRG_CTRL1 : Nat := IMXRT_FLEXSPI1_BASE + 0x0a4

def IMXRT_FLEXSPI1_PRG_CMD : Nat := IMXRT_FLEXSPI1_BASE + 0x0b0

def IMXRT_FLEXSPI1_PRG_READ_FIFO_CTRL : Nat := IMXRT_FLEXSPI1_BASE + 0x0b8

def IMXRT_FLEXSPI1_PRG_WRITE_FIFO_CTRL : Nat := IMXRT_FLEXSPI1_BASE + 0x0bc

def IMXRT_FLEXSPI1_PRG_READ_FIFO : Nat := IMXRT_FLEXSPI1_BASE + 0x100

def IMXRT_FLEXSPI1_PRG_WRITE_FIFO : Nat := IMXRT_FLEXSPI1_BASE + 0x180

def IMXRT_FLEXSPI1_LUT_BASE : Nat := IMXRT_FLEXSPI1_BASE + 0x200

def IMXRT_FLEXSPI1_MOD_CTRL0_SUSPEND : Nat := 0x00000002

def IMXRT_FLEXSPI1_INT_PRG_CMD_DONE : Nat := 0x00000001

def IMXRT_FLEXSPI1_INT_READ_FIFO_FULL : Nat := 0x00000020

def IMXRT_FLEXSPI1_INT_WRITE_FIFO_EMPTY : Nat := 0x00000040

def IMXRT_FLEXSPI1_LUT_KEY_VALUE : Nat := 0x5af05af0

def IMXRT_FLEXSPI1_LUT_CTRL_LOCK : Nat := 0x00000001

def IMXRT_FLEXSPI1_LUT_CTRL_UNLOCK : Nat := 0x00000002

def IMXRT_FLEXSPI1_CTRL1_CAS_MASK : Nat := 0x00007800

def IMXRT_FLEXSPI1_CTRL1_CAS_SHIFT : Nat := 11

def IMXRT_FLEXSPI1_PRG_LENGTH (x : Nat) : Nat := x &&& 0x0000ffff

def IMXRT_FLEXSPI1_PRG_LUT_INDEX_0 : Nat := 0

def IMXRT_FLEXSPI1_PRG_RUN : Nat := 0x00000001

def IMXRT_FLEXSPI1_PRG_FIFO_CTRL_CLR : Nat := 0x00000001

def IMXRT_FLEXSPI1_PRG_FIFO_CTRL_WATERMARK (x : Nat) : Nat :=
  (((((x + 7) >>> 3) - 1) &&& 0xf) <<< 2)

def IMXRT_FLEXSPI_LUT_OPCODE (x : Nat) : Nat := (x &&& 0x3f) <<< 2

def IMXRT_FLEXSPI_LUT_MODE_SERIAL : Nat := 0x0

def IMXRT_FLEXSPI_LUT_OP_STOP : Nat := 0x00

def IMXRT_FLEXSPI_LUT_OP_COMMAND : Nat := 0x01

def IMXRT_FLEXSPI_LUT_OP_CADDR : Nat := 0x03

def IMXRT_FLEXSPI_LUT_OP_RADDR : Nat := 0x02

def IMXRT_FLEXSPI_LUT_OP_DUMMY_CYCLES : Nat := 0x0c

def IMXRT_FLEXSPI_LUT_OP_READ : Nat := 0x09

def IMXRT_FLEXSPI_LUT_OP_WRITE : Nat := 0x08

def IMXRT_SPI_FLASH_OPCODE_MASK : Nat := 0x000000ff

def IMXRT_SPI_FLASH_OPCODE (x : Nat) : Nat := x &&& IMXRT_SPI_FLASH_OPCODE_MASK

def IMXRT_SPI_FLASH_DUMMY_MASK : Nat := 0x0000ff00

def IMXRT_SPI_FLASH_DUMMY_SHIFT : Nat := 8

def IMXRT_SPI_FLASH_DUMMY_LEN (x : Nat) : Nat :=
  (x <<< IMXRT_SPI_FLASH_DUMMY_SHIFT) &&& IMXRT_SPI_FLASH_DUMMY_MASK

def IMXRT_SPI_FLASH_OPCODE_MODE_MASK : Nat := 0x00010000

def IMXRT_SPI_FLASH_OPCODE_ONLY : Nat := 0 <<< 16

def IMXRT_SPI_FLASH_OPCODE_3B_ADDR : Nat := 1 <<< 16

def IMXRT_SPI_FLASH_DATA_IN : Nat := 0 <<< 17

def IMXRT_SPI_FLASH_DATA_OUT : Nat := 1 <<< 17

def SPI_FLASH_OPCODE_SECTOR_ERASE : Nat := 0x20

def SPI_FLASH_CMD_WRITE_ENABLE : Nat :=
  IMXRT_SPI_FLASH_OPCODE_ONLY ||| IMXRT_SPI_FLASH_DUMMY_LEN 0 ||| IMXRT_SPI_FLASH_OPCODE 0x06

def SPI_FLASH_CMD_CHIP_ERASE : Nat :=
  IMXRT_SPI_FLASH_OPCODE_ONLY ||| IMXRT_SPI_FLASH_DUMMY_LEN 0 ||| IMXRT_SPI_FLASH_OPCODE 0x60

def SPI_FLASH_CMD_READ_STATUS : Nat :=
  IMXRT_SPI_FLASH_OPCODE_ONLY ||| IMXRT_SPI_FLASH_DATA_IN ||| IMXRT_SPI_FLASH_DUMMY_LEN 0 |||
    IMXRT_SPI_FLASH_OPCODE 0x05

def SPI_FLASH_CMD_READ_JEDEC_ID : Nat :=
  IMXRT_SPI_FLASH_OPCODE_ONLY ||| IMXRT_SPI_FLASH_DATA_IN ||| IMXRT_SPI_FLASH_DUMMY_LEN 0 |||
    IMXRT_SPI_FLASH_OPCODE 0x9f

def SPI_FLASH_CMD_READ_SFDP : Nat :=
  IMXRT_SPI_FLASH_OPCODE_3B_ADDR ||| IMXRT_SPI_FLASH_DATA_IN ||| IMXRT_SPI_FLASH_DUMMY_LEN 8 |||
    IMXRT_SPI_FLASH_OPCODE 0x5a

def SPI_FLASH_STATUS_BUSY : Nat := 0x01

def SPI_FLASH_STATUS_WRITE_ENABLED : Nat := 0x02

/-- Boot source variants, from the imxrt_boot_src_e enumeration. -/
inductive imxrt_boot_src where
  | boot_spi_flash_nor
  | boot_sd_card
  | boot_emmc
  | boot_slc_nand
  | boot_parallel_nor
  | boot_spi_flash_nand
deriving Repr, DecidableEq

open imxrt_boot_src

/-- One instruction slot of the FlexSPI LUT, from struct imxrt_flexspi_lut_insn:
a value byte and a packed opcode-and-mode byte. -/
structure imxrt_flexspi_lut_insn where
  value : Nat
  opcode_mode : Nat
deriving Repr, DecidableEq

/-- The boot source classifier imxrt_boot_source: a pure decode of the
boot-configuration register value, first match wins. -/
def imxrt_boot_source (boot_cfg : Nat) : imxrt_boot_src :=
  let boot_src := boot_cfg &&& 0xf0
  if boot_src = 0x00 then boot_spi_flash_nor
  else if boot_src &&& 0xc0 = 0x40 then boot_sd_card
  else if boot_src &&& 0xc0 = 0x80 then boot_emmc
  else if boot_src &&& 0xe0 = 0x20 then boot_slc_nand
  else if boot_src = 0x10 then boot_parallel_nor
  else boot_spi_flash_nand

/-- The pure core of imxrt_spi_configure_sequence: the 8-slot instruction
program it builds from the command word, the raw CTRL1 register value (from
which the column-address bit count is extracted inside the addressed branch,
exactly as the C code does) and the transfer length, together with the final
slot write index (the value of the local variable offset when the function is
done populating slots). -/
def imxrt_spi_build_sequence (command : Nat) (ctrl1 : Nat) (length : Nat) :
    List imxrt_flexspi_lut_insn × Nat :=
  let sequence : List imxrt_flexspi_lut_insn := List.replicate 8 ⟨0, 0⟩
  let sequence := sequence.set 0
    ⟨IMXRT_SPI_FLASH_OPCODE command,
     IMXRT_FLEXSPI_LUT_OPCODE IMXRT_FLEXSPI_LUT_OP_COMMAND ||| IMXRT_FLEXSPI_LUT_MODE_SERIAL⟩
  let offset := 1
  let (sequence, offset) :=
    if command &&& IMXRT_SPI_FLASH_OPCODE_MODE_MASK = IMXRT_SPI_FLASH_OPCODE_3B_ADDR then
      let column_address_bits :=
        (ctrl1 &&& IMXRT_FLEXSPI1_CTRL1_CAS_MASK) >>> IMXRT_FLEXSPI1_CTRL1_CAS_SHIFT
      let sequence := sequence.set offset
        ⟨24 - column_address_bits,
         IMXRT_FLEXSPI_LUT_OPCODE IMXRT_FLEXSPI_LUT_OP_RADDR ||| IMXRT_FLEXSPI_LUT_MODE_SERIAL⟩
      let offset := offset + 1
      if column_address_bits ≠ 0 then
        (sequence.set offset
          ⟨column_address_bits,
           IMXRT_FLEXSPI_LUT_OPCODE IMXRT_FLEXSPI_LUT_OP_CADDR ||| IMXRT_FLEXSPI_LUT_MODE_SERIAL⟩,
         offset + 1)
      else (sequence, offset)
    else (sequence, offset)
  let sequence := sequence.set offset
    ⟨(command &&& IMXRT_SPI_FLASH_DUMMY_MASK) >>> IMXRT_SPI_FLASH_DUMMY_SHIFT,
     IMXRT_FLEXSPI_LUT_OPCODE IMXRT_FLEXSPI_LUT_OP_DUMMY_CYCLES ||| IMXRT_FLEXSPI_LUT_MODE_SERIAL⟩
  let offset := offset + 1
  let (sequence, offset) :=
    if length ≠ 0 then
      if command &&& IMXRT_SPI_FLASH_DATA_OUT ≠ 0 then
        (sequence.set offset
          ⟨0, IMXRT_FLEXSPI_LUT_OPCODE IMXRT_FLEXSPI_LUT_OP_WRITE ||| IMXRT_FLEXSPI_LUT_MODE_SERIAL⟩,
         offset + 1)
      else
        (sequence.set offset
          ⟨0, IMXRT_FLEXSPI_LUT_OPCODE IMXRT_FLEXSPI_LUT_OP_READ ||| IMXRT_FLEXSPI_LUT_MODE_SERIAL⟩,
         offset + 1)
    else (sequence, offset)
  (sequence, offset)

/-- Geometry parameters of a SPI flash, from struct spi_parameters_s (declared
in sfdp.h; the four fields used by imxrt_add_flash are transcribed here). -/
structure spi_parameters where
  page_size : Nat
  sector_size : Nat
  capacity : Nat
  sector_erase_opcode : Nat
deriving Repr, DecidableEq

/-- Registered flash region bookkeeping, the fields of target_flash_s that
imxrt_add_flash populates. -/
structure target_flash where
  start : Nat
  length : Nat
  blocksize : Nat
  erased : Nat
deriving Repr, DecidableEq

/-- The geometry-selection and region-registration logic of imxrt_add_flash.
The external SFDP discovery routine sfdp_read_parameters is outside this
module; its outcome is passed in as an Option: some parameters on success,
none on failure, in which case the conservative defaults from the C code are
substituted. Returns the geometry used and the flash region registered. -/
def imxrt_add_flash (sfdp_result : Option spi_parameters) (length : Nat) :
    spi_parameters × target_flash :=
  let spi_params : spi_parameters :=
    match sfdp_result with
    | some params => params
    | none =>
      { page_size := 256
        sector_size := 4096
        capacity := length
        sector_erase_opcode := SPI_FLASH_OPCODE_SECTOR_ERASE }
  (spi_params,
   { start := IMXRT_FLEXSPI_BASE
     length := spi_params.capacity
     blocksize := spi_params.sector_size
     erased := 0xff })

/-- One entry of the event log recording the externally visible actions the
driver performs through the debug transport: 32-bit register writes, whole
LUT instruction-table writes and captures, FIFO window transfers and the
memcpy into the caller buffer. -/
inductive flexspi_event where
  | regWrite (addr val : Nat)
  | lutWrite (seq : List imxrt_flexspi_lut_insn)
  | lutCapture (seq : List imxrt_flexspi_lut_insn)
  | fifoRead (count : Nat)
  | fifoWrite (bytes : List Nat)
  | bufferCopy (count : Nat)
deriving Repr, DecidableEq

/-- The FlexSPI1 controller registers touched by the driver, each a 32-bit
value except the FIFO windows (byte lists) and the 8-slot instruction table. -/
structure flexspi_regs where
  mod_ctrl0 : Nat
  intr : Nat
  lut_key : Nat
  lut_ctrl : Nat
  ctrl1 : Nat
  prg_ctrl0 : Nat
  prg_ctrl1 : Nat
  prg_cmd : Nat
  read_fifo_ctrl : Nat
  write_fifo_ctrl : Nat
  read_fifo : List Nat
  write_fifo : List Nat
  lut : List imxrt_flexspi_lut_insn
deriving Repr, DecidableEq

/-- The driver-private session state, from struct imxrt_priv. -/
structure imxrt_priv where
  boot_source : imxrt_boot_src
  flexspi_module_state : Nat
  flexspi_lut_state : Nat
  flexspi_lut_seq : List imxrt_flexspi_lut_insn
deriving Repr, DecidableEq

/-- The combined machine state: controller registers, the driver session
state, and the log of transport-visible actions performed so far. -/
structure imxrt_state where
  regs : flexspi_regs
  priv : imxrt_priv
  log : List flexspi_event
deriving Repr, DecidableEq

/-- A target_mem_write32 to a FlexSPI1 register: updates the addressed
register and records the write in the event log. The interrupt status
register is write-one-to-clear (the spec §6 read-modify-write-as-ack
pattern), so a write there clears the written bits. -/
def flexspi_write32 (s : imxrt_state) (addr val : Nat) : imxrt_state :=
  let regs := s.regs
  let regs :=
    if addr = IMXRT_FLEXSPI1_MOD_CTRL0 then { regs with mod_ctrl0 := val }
    else if addr = IMXRT_FLEXSPI1_INT then { regs with intr := regs.intr &&& (0xffffffff ^^^ val) }
    else if addr = IMXRT_FLEXSPI1_LUT_KEY then { regs with lut_key := val }
    else if addr = IMXRT_FLEXSPI1_LUT_CTRL then { regs with lut_ctrl := val }
    else if addr = IMXRT_FLEXSPI1_CTRL1 then { regs with ctrl1 := val }
    else if addr = IMXRT_FLEXSPI1_PRG_CTRL0 then { regs with prg_ctrl0 := val }
    else if addr = IMXRT_FLEXSPI1_PRG_CTRL1 then { regs with prg_ctrl1 := val }
    else if addr = IMXRT_FLEXSPI1_PRG_CMD then { regs with prg_cmd := val }
    else if addr = IMXRT_FLEXSPI1_PRG_READ_FIFO_CTRL then { regs with read_fifo_ctrl := val }
    else if addr = IMXRT_FLEXSPI1_PRG_WRITE_FIFO_CTRL then { regs with write_fifo_ctrl := val }
    else regs
  { s with regs := regs, log := s.log ++ [flexspi_event.regWrite addr val] }

/-- A target_mem_read32 of a FlexSPI1 register. -/
def flexspi_read32 (s : imxrt_state) (addr : Nat) : Nat :=
  if addr = IMXRT_FLEXSPI1_MOD_CTRL0 then s.regs.mod_ctrl0
  else if addr = IMXRT_FLEXSPI1_INT then s.regs.intr
  else if addr = IMXRT_FLEXSPI1_LUT_KEY then s.regs.lut_key
  else if addr = IMXRT_FLEXSPI1_LUT_CTRL then s.regs.lut_ctrl
  else if addr = IMXRT_FLEXSPI1_CTRL1 then s.regs.ctrl1
  else if addr = IMXRT_FLEXSPI1_PRG_CTRL0 then s.regs.prg_ctrl0
  else if addr = IMXRT_FLEXSPI1_PRG_CTRL1 then s.regs.prg_ctrl1
  else if addr = IMXRT_FLEXSPI1_PRG_CMD then s.regs.prg_cmd
  else if addr = IMXRT_FLEXSPI1_PRG_READ_FIFO_CTRL then s.regs.read_fifo_ctrl
  else if addr = IMXRT_FLEXSPI1_PRG_WRITE_FIFO_CTRL then s.regs.write_fifo_ctrl
  else 0

/-- The controller state guard entry imxrt_enter_flash_mode: capture the
module-control register (clearing the suspend bit if set), acknowledge all
pending interrupts, configure both FIFOs, capture the LUT lock register and
unlock the LUT if it is not already unlocked. Always returns true. -/
def imxrt_enter_flash_mode (s : imxrt_state) : imxrt_state × Bool :=
  let module_state := flexspi_read32 s IMXRT_FLEXSPI1_MOD_CTRL0
  let s := { s with priv := { s.priv with flexspi_module_state := module_state } }
  let s :=
    if module_state &&& IMXRT_FLEXSPI1_MOD_CTRL0_SUSPEND ≠ 0 then
      flexspi_write32 s IMXRT_FLEXSPI1_MOD_CTRL0
        (module_state &&& (0xffffffff ^^^ IMXRT_FLEXSPI1_MOD_CTRL0_SUSPEND))
    else s
  let s := flexspi_write32 s IMXRT_FLEXSPI1_INT (flexspi_read32 s IMXRT_FLEXSPI1_INT)
  let s := flexspi_write32 s IMXRT_FLEXSPI1_PRG_READ_FIFO_CTRL
    (IMXRT_FLEXSPI1_PRG_FIFO_CTRL_WATERMARK 128 ||| IMXRT_FLEXSPI1_PRG_FIFO_CTRL_CLR)
  let s := flexspi_write32 s IMXRT_FLEXSPI1_PRG_WRITE_FIFO_CTRL
    (IMXRT_FLEXSPI1_PRG_FIFO_CTRL_WATERMARK 128 ||| IMXRT_FLEXSPI1_PRG_FIFO_CTRL_CLR)
  let lut_state := flexspi_read32 s IMXRT_FLEXSPI1_LUT_CTRL
  let s := { s with priv := { s.priv with flexspi_lut_state := lut_state } }
  let s :=
    if lut_state ≠ IMXRT_FLEXSPI1_LUT_CTRL_UNLOCK then
      let s := flexspi_write32 s IMXRT_FLEXSPI1_LUT_KEY IMXRT_FLEXSPI1_LUT_KEY_VALUE
      flexspi_write32 s IMXRT_FLEXSPI1_LUT_CTRL IMXRT_FLEXSPI1_LUT_CTRL_UNLOCK
    else s
  (s, true)

/-- The controller state guard exit imxrt_exit_flash_mode: re-lock the LUT to
its captured state if it was not unlocked at entry, then write the captured
module-control value back verbatim. Always returns true. -/
def imxrt_exit_flash_mode (s : imxrt_state) : imxrt_state × Bool :=
  let s :=
    if s.priv.flexspi_lut_state ≠ IMXRT_FLEXSPI1_LUT_CTRL_UNLOCK then
      let s' := flexspi_write32 s IMXRT_FLEXSPI1_LUT_KEY IMXRT_FLEXSPI1_LUT_KEY_VALUE
      flexspi_write32 s' IMXRT_FLEXSPI1_LUT_CTRL s.priv.flexspi_lut_state
    else s
  (flexspi_write32 s IMXRT_FLEXSPI1_MOD_CTRL0 s.priv.flexspi_module_state, true)

/-- The command sequencer imxrt_spi_configure_sequence: capture the current
LUT contents into the session, synthesize the new 8-slot program (see
imxrt_spi_build_sequence for its pure core), write it to the LUT, write the
address register for addressed commands, and write the masked transfer length
and sequence index to the trigger control register. -/
def imxrt_spi_configure_sequence (s : imxrt_state) (command address length : Nat) :
    imxrt_state :=
  let s := { s with
    priv := { s.priv with flexspi_lut_seq := s.regs.lut }
    log := s.log ++ [flexspi_event.lutCapture s.regs.lut] }
  let sequence := (imxrt_spi_build_sequence command (flexspi_read32 s IMXRT_FLEXSPI1_CTRL1) length).1
  let s := { s with
    regs := { s.regs with lut := sequence }
    log := s.log ++ [flexspi_event.lutWrite sequence] }
  let s :=
    if command &&& IMXRT_SPI_FLASH_OPCODE_MODE_MASK = IMXRT_SPI_FLASH_OPCODE_3B_ADDR then
      flexspi_write32 s IMXRT_FLEXSPI1_PRG_CTRL0 address
    else s
  flexspi_write32 s IMXRT_FLEXSPI1_PRG_CTRL1
    (IMXRT_FLEXSPI1_PRG_LUT_INDEX_0 ||| IMXRT_FLEXSPI1_PRG_LENGTH length)

/-- The sequence preservation release imxrt_spi_restore: write the captured
instruction table back verbatim. -/
def imxrt_spi_restore (s : imxrt_state) : imxrt_state :=
  { s with
    regs := { s.regs with lut := s.priv.flexspi_lut_seq }
    log := s.log ++ [flexspi_event.lutWrite s.priv.flexspi_lut_seq] }

/-- The trigger-and-await step imxrt_spi_wait_complete: write the run bit to
the command register, then busy-poll the interrupt register until the
command-done flag appears and acknowledge it. The model assumes the poll
terminates: the hardware raises the done flag while the sequence runs, after
which the acknowledging write-one-to-clear resets it. -/
def imxrt_spi_wait_complete (s : imxrt_state) : imxrt_state :=
  let s := flexspi_write32 s IMXRT_FLEXSPI1_PRG_CMD IMXRT_FLEXSPI1_PRG_RUN
  let s := { s with regs := { s.regs with intr := s.regs.intr ||| IMXRT_FLEXSPI1_INT_PRG_CMD_DONE } }
  flexspi_write32 s IMXRT_FLEXSPI1_INT IMXRT_FLEXSPI1_INT_PRG_CMD_DONE

/-- The transfer primitive imxrt_spi_read: configure the sequence, run it,
read the fixed 128-byte window from the read FIFO into a scratch buffer, copy
the requested length prefix into the caller buffer, acknowledge the
read-FIFO-full interrupt, and restore the saved instruction table. Returns
the final state and the bytes delivered to the caller. -/
def imxrt_spi_read (s : imxrt_state) (command address length : Nat) :
    imxrt_state × List Nat :=
  let s := imxrt_spi_configure_sequence s command address length
  let s := imxrt_spi_wait_complete s
  let data := s.regs.read_fifo.take 128
  let s := { s with log := s.log ++ [flexspi_event.fifoRead 128] }
  let buffer := data.take length
  let s := { s with log := s.log ++ [flexspi_event.bufferCopy length] }
  let s := flexspi_write32 s IMXRT_FLEXSPI1_INT IMXRT_FLEXSPI1_INT_READ_FIFO_FULL
  (imxrt_spi_restore s, buffer)

/-- The transfer primitive imxrt_spi_write: configure the sequence; when the
length is nonzero, zero-pad the caller data to a 4-byte boundary in a 128-byte
scratch buffer, write it to the write FIFO and acknowledge the
write-FIFO-empty interrupt; then run the sequence and restore the saved
instruction table. -/
def imxrt_spi_write (s : imxrt_state) (command address : Nat) (buffer : List Nat)
    (length : Nat) : imxrt_state :=
  let s := imxrt_spi_configure_sequence s command address length
  let s :=
    if length ≠ 0 then
      let data := (buffer.take length ++ List.replicate (128 - length) 0).take 128
      let written := data.take ((length + 3) &&& 0xfffffffc)
      let s := { s with
        regs := { s.regs with write_fifo := written }
        log := s.log ++ [flexspi_event.fifoWrite written] }
      flexspi_write32 s IMXRT_FLEXSPI1_INT IMXRT_FLEXSPI1_INT_WRITE_FIFO_EMPTY
    else s
  let s := imxrt_spi_wait_complete s
  imxrt_spi_restore s

/-- A hardware response step: the external flash chip answers a command by
filling the 128-byte read FIFO window with the given bytes (zero padded).
This models the hardware side of a command execution, which the driver never
observes except through the FIFO. -/
def imxrt_hw_respond (s : imxrt_state) (bytes : List Nat) : imxrt_state :=
  { s with regs := { s.regs with read_fifo := (bytes ++ List.replicate 128 0).take 128 } }

/-- The status readback imxrt_spi_read_status: read one byte with the Read
Status command. -/
def imxrt_spi_read_status (s : imxrt_state) : imxrt_state × Nat :=
  let r := imxrt_spi_read s SPI_FLASH_CMD_READ_STATUS 0 1
  (r.1, r.2.headD 0)

/-- The data-free command helper imxrt_spi_run_command: a zero-length write. -/
def imxrt_spi_run_command (s : imxrt_state) (command : Nat) : imxrt_state :=
  imxrt_spi_write s command 0 [] 0

/-- The busy-bit poll of imxrt_spi_mass_erase: repeatedly let the flash answer
with its next status byte (the oracle statuses, indexed by how many status
reads have happened so far) and read it, until the busy bit clears. The fuel
argument bounds the number of iterations; none models a poll that has not
terminated within the fuel, so a some result expresses the termination
assumption. The progress printout in the loop body has no machine-visible
effect and is not modelled. -/
def imxrt_erase_poll (statuses : Nat → Nat) (i : Nat) (s : imxrt_state) :
    Nat → Option imxrt_state
  | 0 => none
  | fuel + 1 =>
    let s := imxrt_hw_respond s [statuses i]
    let r := imxrt_spi_read_status s
    if r.2 &&& SPI_FLASH_STATUS_BUSY ≠ 0 then imxrt_erase_poll statuses (i + 1) r.1 fuel
    else some r.1

/-- The mass-erase orchestrator imxrt_spi_mass_erase: enter guarded mode,
issue Write Enable, read status; if the write-enabled bit is clear, exit
guarded mode and return false; otherwise issue Chip Erase, poll the busy bit
until it clears, and return the result of exiting guarded mode. The flash
chip is modelled by the statuses oracle giving the successive status bytes it
returns (index 0 is the read following Write Enable); fuel bounds the busy
poll, and a none result means the poll did not terminate within the fuel. -/
def imxrt_spi_mass_erase (s : imxrt_state) (statuses : Nat → Nat) (fuel : Nat) :
    Option (imxrt_state × Bool) :=
  let s := (imxrt_enter_flash_mode s).1
  let s := imxrt_spi_run_command s SPI_FLASH_CMD_WRITE_ENABLE
  let s := imxrt_hw_respond s [statuses 0]
  let r := imxrt_spi_read_status s
  if r.2 &&& SPI_FLASH_STATUS_WRITE_ENABLED = 0 then
    some ((imxrt_exit_flash_mode r.1).1, false)
  else
    let s := imxrt_spi_run_command r.1 SPI_FLASH_CMD_CHIP_ERASE
    match imxrt_erase_poll statuses 1 s fuel with
    | none => none
    | some s => some (imxrt_exit_flash_mode s)

/-- The JEDEC ID response, from struct spi_flash_id_s. Modelled from the
spec: the structure is declared in sfdp.h, outside this module; spec §6 gives
its layout as byte0 = manufacturer, byte1 = type, byte2 = capacity exponent. -/
structure spi_flash_id where
  manufacturer : Nat
  type : Nat
  capacity : Nat
deriving Repr, DecidableEq

/-- The flash-detection tail of imxrt_probe for the serial NOR and NAND boot
sources, plus the trivial paths. Takes the part identifier, the raw
boot-configuration register value and the three JEDEC ID bytes the flash chip
answers with (the hardware oracle for the JEDEC ID read). Returns the final
state, whether the probe claimed the target, and the fallback capacity passed
to imxrt_add_flash when a flash region was requested (none when it was not).
RAM-region registration, debug printout and allocation failure are outside
the scope of this model. -/
def imxrt_probe (s : imxrt_state) (part_id boot_cfg : Nat) (jedec : List Nat) :
    imxrt_state × Bool × Option Nat :=
  if part_id ≠ 0x88c then (s, false, none)
  else
    let boot_source := imxrt_boot_source boot_cfg
    let s := { s with priv := { s.priv with boot_source := boot_source } }
    if boot_source = boot_spi_flash_nor ∨ boot_source = boot_spi_flash_nand then
      let s := (imxrt_enter_flash_mode s).1
      let s := imxrt_hw_respond s jedec
      let r := imxrt_spi_read s SPI_FLASH_CMD_READ_JEDEC_ID 0 3
      let flash_id : spi_flash_id := ⟨r.2.getD 0 0, r.2.getD 1 0, r.2.getD 2 0⟩
      let request :=
        if flash_id.manufacturer ≠ 0xff ∧ flash_id.type ≠ 0xff ∧ flash_id.capacity ≠ 0xff then
          some ((1 <<< flash_id.capacity) % 2 ^ 32)
        else none
      let s := (imxrt_exit_flash_mode r.1).1
      (s, true, request)
    else (s, true, none)

/-- A concrete all-zero machine state used for witnesses. -/
def imxrt_init_state : imxrt_state :=
  { regs :=
    { mod_ctrl0 := 0
      intr := 0
      lut_key := 0
      lut_ctrl := 0
      ctrl1 := 0
      prg_ctrl0 := 0
      prg_ctrl1 := 0
      prg_cmd := 0
      read_fifo_ctrl := 0
      write_fifo_ctrl := 0
      read_fifo := List.replicate 128 0
      write_fifo := []
      lut := List.replicate 8 ⟨0, 0⟩ }
    priv :=
    { boot_source := boot_spi_flash_nor
      flexspi_module_state := 0
      flexspi_lut_state := 0
      flexspi_lut_seq := [] }
    log := [] }

/-- Discriminator for instruction-table events in the log: true exactly on
whole-table writes and captures. -/
def is_lut_event : flexspi_event → Bool
  | flexspi_event.lutWrite _ => true
  | flexspi_event.lutCapture _ => true
  | _ => false

/-- The log event recording one trigger of the sequence command register. -/
def imxrt_run_event : flexspi_event :=
  flexspi_event.regWrite IMXRT_FLEXSPI1_PRG_CMD IMXRT_FLEXSPI1_PRG_RUN

/-! Theorems. -/

/-- C1: the command sequencer synthesizes, for every flash-command
descriptor, an 8-slot program in the exact order Command, then (for
three-byte addressing) RowAddress with operand 24 minus the column bit
count followed, when that count is nonzero, by ColumnAddress with the
count, then always DummyCycles with the dummy-cycle byte of the command
(even when 0), then a Read or Write instruction only when the transfer
length is nonzero, all remaining slots zero (implicit Stop); in
particular an unaddressed zero-length descriptor populates exactly 2
slots and a three-byte-addressed, zero-column-bits, data-carrying
descriptor exactly 4. -/
theorem imxrt_spi_configure_sequence_program (command ctrl1 length : Nat) :
    (command &&& 0x10000 ≠ 0x10000 → length = 0 →
      imxrt_spi_build_sequence command ctrl1 length =
        ([⟨command &&& 0xff, 0x04⟩, ⟨(command &&& 0xff00) >>> 8, 0x30⟩,
          ⟨0, 0⟩, ⟨0, 0⟩, ⟨0, 0⟩, ⟨0, 0⟩, ⟨0, 0⟩, ⟨0, 0⟩], 2)) ∧
    (command &&& 0x10000 ≠ 0x10000 → length ≠ 0 →
      imxrt_spi_build_sequence command ctrl1 length =
        ([⟨command &&& 0xff, 0x04⟩, ⟨(command &&& 0xff00) >>> 8, 0x30⟩,
          ⟨0, if command &&& 0x20000 ≠ 0 then 0x20 else 0x24⟩,
          ⟨0, 0⟩, ⟨0, 0⟩, ⟨0, 0⟩, ⟨0, 0⟩, ⟨0, 0⟩], 3)) ∧
    (command &&& 0x10000 = 0x10000 → (ctrl1 &&& 0x7800) >>> 11 = 0 → length = 0 →
      imxrt_spi_build_sequence command ctrl1 length =
        ([⟨command &&& 0xff, 0x04⟩, ⟨24, 0x08⟩, ⟨(command &&& 0xff00) >>> 8, 0x30⟩,
          ⟨0, 0⟩, ⟨0, 0⟩, ⟨0, 0⟩, ⟨0, 0⟩, ⟨0, 0⟩], 3)) ∧
    (command &&& 0x10000 = 0x10000 → (ctrl1 &&& 0x7800) >>> 11 = 0 → length ≠ 0 →
      imxrt_spi_build_sequence command ctrl1 length =
        ([⟨command &&& 0xff, 0x04⟩, ⟨24, 0x08⟩, ⟨(command &&& 0xff00) >>> 8, 0x30⟩,
          ⟨0, if command &&& 0x20000 ≠ 0 then 0x20 else 0x24⟩,
          ⟨0, 0⟩, ⟨0, 0⟩, ⟨0, 0⟩, ⟨0, 0⟩], 4)) ∧
    (command &&& 0x10000 = 0x10000 → (ctrl1 &&& 0x7800) >>> 11 ≠ 0 → length = 0 →
      imxrt_spi_build_sequence command ctrl1 length =
        ([⟨command &&& 0xff, 0x04⟩, ⟨24 - ((ctrl1 &&& 0x7800) >>> 11), 0x08⟩,
          ⟨(ctrl1 &&& 0x7800) >>> 11, 0x0c⟩, ⟨(command &&& 0xff00) >>> 8, 0x30⟩,
          ⟨0, 0⟩, ⟨0, 0⟩, ⟨0, 0⟩, ⟨0, 0⟩], 4)) ∧
    (command &&& 0x10000 = 0x10000 → (ctrl1 &&& 0x7800) >>> 11 ≠ 0 → length ≠ 0 →
      imxrt_spi_build_sequence command ctrl1 length =
        ([⟨command &&& 0xff, 0x04⟩, ⟨24 - ((ctrl1 &&& 0x7800) >>> 11), 0x08⟩,
          ⟨(ctrl1 &&& 0x7800) >>> 11, 0x0c⟩, ⟨(command &&& 0xff00) >>> 8, 0x30⟩,
          ⟨0, if command &&& 0x20000 ≠ 0 then 0x20 else 0x24⟩,
          ⟨0, 0⟩, ⟨0, 0⟩, ⟨0, 0⟩], 5)) := by
  and_intros <;> intros <;> by_cases hd : command &&& 0x20000 ≠ 0 <;>
    simp [imxrt_spi_build_sequence, IMXRT_SPI_FLASH_OPCODE_MODE_MASK,
      IMXRT_SPI_FLASH_OPCODE_3B_ADDR, IMXRT_FLEXSPI1_CTRL1_CAS_MASK,
      IMXRT_FLEXSPI1_CTRL1_CAS_SHIFT, IMXRT_SPI_FLASH_OPCODE,
      IMXRT_SPI_FLASH_OPCODE_MASK, IMXRT_FLEXSPI_LUT_OPCODE,
      IMXRT_FLEXSPI_LUT_OP_COMMAND, IMXRT_FLEXSPI_LUT_MODE_SERIAL,
      IMXRT_FLEXSPI_LUT_OP_RADDR, IMXRT_FLEXSPI_LUT_OP_CADDR,
      IMXRT_FLEXSPI_LUT_OP_DUMMY_CYCLES, IMXRT_FLEXSPI_LUT_OP_READ,
      IMXRT_FLEXSPI_LUT_OP_WRITE, IMXRT_SPI_FLASH_DUMMY_MASK,
      IMXRT_SPI_FLASH_DUMMY_SHIFT, IMXRT_SPI_FLASH_DATA_OUT, hd, *] <;>
    decide

/-- Witness for C1: the Read SFDP command word (three-byte addressing, data
in) with zero column bits and length 4 populates exactly 4 slots, and the
Write Enable command word (unaddressed) with length 0 populates exactly 2. -/
theorem imxrt_spi_configure_sequence_program_witness :
    imxrt_spi_build_sequence 0x1085a 0 4 =
      ([⟨0x5a, 0x04⟩, ⟨24, 0x08⟩, ⟨8, 0x30⟩, ⟨0, 0x24⟩,
        ⟨0, 0⟩, ⟨0, 0⟩, ⟨0, 0⟩, ⟨0, 0⟩], 4) ∧
    imxrt_spi_build_sequence 0x06 0 0 =
      ([⟨0x06, 0x04⟩, ⟨0, 0x30⟩, ⟨0, 0⟩, ⟨0, 0⟩, ⟨0, 0⟩, ⟨0, 0⟩, ⟨0, 0⟩, ⟨0, 0⟩], 2) := by
  constructor
  · have h := (imxrt_spi_configure_sequence_program 0x1085a 0 4).2.2.2.1
      (by decide) (by decide) (by decide)
    rw [h]
    decide
  · have h := (imxrt_spi_configure_sequence_program 0x06 0 0).1 (by decide) (by decide)
    rw [h]
    decide

/-- C9: for every command word, CTRL1 value and transfer length, the
column-address bit count extracted from the 4-bit CAS field is at most 15,
hence strictly below 24 so the RowAddress operand 24 minus it never
underflows, the final slot write index of sequence synthesis is at most 5
(so at most 5 of the 8 slots are ever populated and every slot write stays
within the array bound), and the synthesized table keeps exactly 8 slots. -/
theorem imxrt_spi_build_sequence_capacity (command ctrl1 length : Nat) :
    (ctrl1 &&& IMXRT_FLEXSPI1_CTRL1_CAS_MASK) >>> IMXRT_FLEXSPI1_CTRL1_CAS_SHIFT ≤ 15 ∧
    (ctrl1 &&& IMXRT_FLEXSPI1_CTRL1_CAS_MASK) >>> IMXRT_FLEXSPI1_CTRL1_CAS_SHIFT < 24 ∧
    9 ≤ 24 - (ctrl1 &&& IMXRT_FLEXSPI1_CTRL1_CAS_MASK) >>> IMXRT_FLEXSPI1_CTRL1_CAS_SHIFT ∧
    (imxrt_spi_build_sequence command ctrl1 length).2 ≤ 5 ∧
    (imxrt_spi_build_sequence command ctrl1 length).1.length = 8 := by
  have hcas : (ctrl1 &&& IMXRT_FLEXSPI1_CTRL1_CAS_MASK) >>> IMXRT_FLEXSPI1_CTRL1_CAS_SHIFT ≤ 15 := by
    have h1 : ctrl1 &&& IMXRT_FLEXSPI1_CTRL1_CAS_MASK ≤ 0x7800 := Nat.and_le_right
    have h2 : (ctrl1 &&& IMXRT_FLEXSPI1_CTRL1_CAS_MASK) >>> IMXRT_FLEXSPI1_CTRL1_CAS_SHIFT ≤
        0x7800 >>> 11 := by
      simp only [Nat.shiftRight_eq_div_pow, IMXRT_FLEXSPI1_CTRL1_CAS_SHIFT]
      exact Nat.div_le_div_right h1
    exact le_trans h2 (by decide)
  refine ⟨hcas, by omega, by omega, ?_, ?_⟩ <;>
    by_cases h3b : command &&& 0x10000 = 0x10000 <;>
    by_cases hcab : (ctrl1 &&& 0x7800) >>> 11 = 0 <;>
    by_cases hl : length = 0 <;>
    by_cases hd : command &&& 0x20000 ≠ 0 <;>
    simp [imxrt_spi_build_sequence, IMXRT_SPI_FLASH_OPCODE_MODE_MASK,
      IMXRT_SPI_FLASH_OPCODE_3B_ADDR, IMXRT_FLEXSPI1_CTRL1_CAS_MASK,
      IMXRT_FLEXSPI1_CTRL1_CAS_SHIFT, IMXRT_SPI_FLASH_DATA_OUT, h3b, hcab, hl, hd]

set_option maxRecDepth 16384 in
/-- C4: the boot-source classifier is a total pure function of the 32-bit
boot-configuration value that depends only on bits [7:4]; on the masked
value it is the first-match-wins cascade 0x00 to SpiNor, then masked with
0xC0 equal 0x40 to SdCard, then masked with 0xC0 equal 0x80 to Emmc, then
masked with 0xE0 equal 0x20 to SlcNand, then 0x10 to ParallelNor, and
everything else to SpiNand; in particular 0x00, 0x40, 0x80, 0x20, 0x10 and
0xC0 map to the six respective variants. -/
theorem imxrt_boot_source_classifier :
    (∀ boot_cfg : Nat, imxrt_boot_source boot_cfg = imxrt_boot_source (boot_cfg &&& 0xf0)) ∧
    (∀ boot_cfg : Nat,
      (boot_cfg &&& 0xf0 = 0x00 → imxrt_boot_source boot_cfg = boot_spi_flash_nor) ∧
      (boot_cfg &&& 0xf0 ≠ 0x00 → (boot_cfg &&& 0xf0) &&& 0xc0 = 0x40 →
        imxrt_boot_source boot_cfg = boot_sd_card) ∧
      (boot_cfg &&& 0xf0 ≠ 0x00 → (boot_cfg &&& 0xf0) &&& 0xc0 ≠ 0x40 →
        (boot_cfg &&& 0xf0) &&& 0xc0 = 0x80 → imxrt_boot_source boot_cfg = boot_emmc) ∧
      (boot_cfg &&& 0xf0 ≠ 0x00 → (boot_cfg &&& 0xf0) &&& 0xc0 ≠ 0x40 →
        (boot_cfg &&& 0xf0) &&& 0xc0 ≠ 0x80 → (boot_cfg &&& 0xf0) &&& 0xe0 = 0x20 →
        imxrt_boot_source boot_cfg = boot_slc_nand) ∧
      (boot_cfg &&& 0xf0 ≠ 0x00 → (boot_cfg &&& 0xf0) &&& 0xc0 ≠ 0x40 →
        (boot_cfg &&& 0xf0) &&& 0xc0 ≠ 0x80 → (boot_cfg &&& 0xf0) &&& 0xe0 ≠ 0x20 →
        boot_cfg &&& 0xf0 = 0x10 → imxrt_boot_source boot_cfg = boot_parallel_nor) ∧
      (boot_cfg &&& 0xf0 ≠ 0x00 → (boot_cfg &&& 0xf0) &&& 0xc0 ≠ 0x40 →
        (boot_cfg &&& 0xf0) &&& 0xc0 ≠ 0x80 → (boot_cfg &&& 0xf0) &&& 0xe0 ≠ 0x20 →
        boot_cfg &&& 0xf0 ≠ 0x10 → imxrt_boot_source boot_cfg = boot_spi_flash_nand)) ∧
    imxrt_boot_source 0x00 = boot_spi_flash_nor ∧
    imxrt_boot_source 0x40 = boot_sd_card ∧
    imxrt_boot_source 0x80 = boot_emmc ∧
    imxrt_boot_source 0x20 = boot_slc_nand ∧
    imxrt_boot_source 0x10 = boot_parallel_nor ∧
    imxrt_boot_source 0xc0 = boot_spi_flash_nand := by
  have hidem : ∀ v : Nat, (v &&& 0xf0) &&& 0xf0 = v &&& 0xf0 := by
    intro v
    rw [Nat.and_assoc]
    congr 1
  have hmasked : ∀ v : Nat, imxrt_boot_source v = imxrt_boot_source (v &&& 0xf0) := by
    intro v
    simp only [imxrt_boot_source, hidem]
  refine ⟨hmasked, ?_, by decide, by decide, by decide, by decide, by decide, by decide⟩
  intro v
  refine ⟨?_, ?_, ?_, ?_, ?_, ?_⟩ <;> intros <;> simp [imxrt_boot_source, *]

/-- Witness for C4: the classifier at the masked value 0x40 decided through
the first-match-wins cascade gives the SD card variant. -/
theorem imxrt_boot_source_classifier_witness :
    imxrt_boot_source 0x42 = boot_sd_card :=
  (imxrt_boot_source_classifier.2.1 0x42).2.1 (by decide) (by decide)

/-- C7: when SFDP discovery fails, flash-region registration substitutes the
conservative default geometry of 256-byte pages, 4096-byte sectors, the
caller-supplied fallback capacity and the standard 0x20 sector-erase opcode;
in particular fallback capacity 8388608 yields exactly that geometry. -/
theorem imxrt_add_flash_fallback_geometry :
    (∀ length : Nat, (imxrt_add_flash none length).1 =
      ⟨256, 4096, length, SPI_FLASH_OPCODE_SECTOR_ERASE⟩) ∧
    SPI_FLASH_OPCODE_SECTOR_ERASE = 0x20 ∧
    (imxrt_add_flash none 8388608).1 = ⟨256, 4096, 8388608, 0x20⟩ := by
  refine ⟨fun length => rfl, rfl, rfl⟩

/-- C3: entering guarded mode and then immediately exiting it restores the
Module Control 0 register and the LUT Control register to exactly their
pre-enter values; the exit phase writes the captured module-control value
back verbatim and re-issues the unlock key followed by the original lock
value precisely when the lock state captured at entry was not the unlocked
value; both enter and exit return true. -/
theorem imxrt_flash_mode_guard_restores (s : imxrt_state) :
    (imxrt_enter_flash_mode s).2 = true ∧
    (imxrt_exit_flash_mode (imxrt_enter_flash_mode s).1).2 = true ∧
    (imxrt_exit_flash_mode (imxrt_enter_flash_mode s).1).1.regs.mod_ctrl0 = s.regs.mod_ctrl0 ∧
    (imxrt_exit_flash_mode (imxrt_enter_flash_mode s).1).1.regs.lut_ctrl = s.regs.lut_ctrl ∧
    ((imxrt_exit_flash_mode (imxrt_enter_flash_mode s).1).1.log =
      (imxrt_enter_flash_mode s).1.log ++
        (if s.regs.lut_ctrl ≠ IMXRT_FLEXSPI1_LUT_CTRL_UNLOCK then
          [flexspi_event.regWrite IMXRT_FLEXSPI1_LUT_KEY IMXRT_FLEXSPI1_LUT_KEY_VALUE,
           flexspi_event.regWrite IMXRT_FLEXSPI1_LUT_CTRL s.regs.lut_ctrl,
           flexspi_event.regWrite IMXRT_FLEXSPI1_MOD_CTRL0 s.regs.mod_ctrl0]
        else [flexspi_event.regWrite IMXRT_FLEXSPI1_MOD_CTRL0 s.regs.mod_ctrl0])) := by
  by_cases hsus : s.regs.mod_ctrl0 &&& 2 = 0 <;>
  by_cases hlock : s.regs.lut_ctrl = 2 <;>
  simp [imxrt_enter_flash_mode, imxrt_exit_flash_mode, flexspi_write32, flexspi_read32,
    IMXRT_FLEXSPI1_BASE, IMXRT_FLEXSPI1_MOD_CTRL0, IMXRT_FLEXSPI1_INT,
    IMXRT_FLEXSPI1_LUT_KEY, IMXRT_FLEXSPI1_LUT_CTRL, IMXRT_FLEXSPI1_CTRL1,
    IMXRT_FLEXSPI1_PRG_CTRL0, IMXRT_FLEXSPI1_PRG_CTRL1, IMXRT_FLEXSPI1_PRG_CMD,
    IMXRT_FLEXSPI1_PRG_READ_FIFO_CTRL, IMXRT_FLEXSPI1_PRG_WRITE_FIFO_CTRL,
    IMXRT_FLEXSPI1_MOD_CTRL0_SUSPEND, IMXRT_FLEXSPI1_LUT_CTRL_UNLOCK,
    IMXRT_FLEXSPI1_LUT_KEY_VALUE, hsus, hlock]

/-- C2: every SPI read and every SPI write issued through the sequencer
captures the full 8-slot instruction table into the session before
overwriting it and writes it back verbatim exactly once after the operation
completes: the final table equals the initial one, the captured copy is the
initial table, and the instruction-table events of the operation are exactly
one capture of the original table, one write of the synthesized program and
one write of the original table, in that order, on every path. -/
theorem imxrt_spi_transfer_preserves_lut (s : imxrt_state)
    (command address length : Nat) (buffer : List Nat) :
    ((imxrt_spi_read s command address length).1.regs.lut = s.regs.lut ∧
     (imxrt_spi_read s command address length).1.priv.flexspi_lut_seq = s.regs.lut ∧
     (imxrt_spi_read s command address length).1.log.filter is_lut_event =
       s.log.filter is_lut_event ++
         [flexspi_event.lutCapture s.regs.lut,
          flexspi_event.lutWrite (imxrt_spi_build_sequence command s.regs.ctrl1 length).1,
          flexspi_event.lutWrite s.regs.lut]) ∧
    ((imxrt_spi_write s command address buffer length).regs.lut = s.regs.lut ∧
     (imxrt_spi_write s command address buffer length).priv.flexspi_lut_seq = s.regs.lut ∧
     (imxrt_spi_write s command address buffer length).log.filter is_lut_event =
       s.log.filter is_lut_event ++
         [flexspi_event.lutCapture s.regs.lut,
          flexspi_event.lutWrite (imxrt_spi_build_sequence command s.regs.ctrl1 length).1,
          flexspi_event.lutWrite s.regs.lut]) := by
  constructor <;>
  by_cases h3b : command &&& 0x10000 = 0x10000 <;>
  by_cases hl : length = 0 <;>
  simp [imxrt_spi_read, imxrt_spi_write, imxrt_spi_configure_sequence,
    imxrt_spi_wait_complete, imxrt_spi_restore, flexspi_write32, flexspi_read32,
    is_lut_event, IMXRT_FLEXSPI1_BASE, IMXRT_FLEXSPI1_MOD_CTRL0, IMXRT_FLEXSPI1_INT,
    IMXRT_FLEXSPI1_LUT_KEY, IMXRT_FLEXSPI1_LUT_CTRL, IMXRT_FLEXSPI1_CTRL1,
    IMXRT_FLEXSPI1_PRG_CTRL0, IMXRT_FLEXSPI1_PRG_CTRL1, IMXRT_FLEXSPI1_PRG_CMD,
    IMXRT_FLEXSPI1_PRG_READ_FIFO_CTRL, IMXRT_FLEXSPI1_PRG_WRITE_FIFO_CTRL,
    IMXRT_SPI_FLASH_OPCODE_MODE_MASK, IMXRT_SPI_FLASH_OPCODE_3B_ADDR,
    IMXRT_FLEXSPI1_PRG_RUN, IMXRT_FLEXSPI1_INT_PRG_CMD_DONE,
    IMXRT_FLEXSPI1_INT_READ_FIFO_FULL, IMXRT_FLEXSPI1_INT_WRITE_FIFO_EMPTY,
    IMXRT_FLEXSPI1_PRG_LUT_INDEX_0, IMXRT_FLEXSPI1_PRG_LENGTH, h3b, hl]

/-- C8: a SPI read of at most 128 bytes delivers exactly the first length
bytes of the fixed 128-byte read-FIFO window to the caller, and its
transport actions are, in order: capture of the table, write of the
synthesized program, the address write for addressed commands, the trigger
control write with the length masked to 16 bits combined with sequence index
0, the run trigger, the command-done acknowledge, the 128-byte FIFO window
read, the length-byte copy out, the read-FIFO-full acknowledge, and the
restoring table write. -/
theorem imxrt_spi_read_contract (s : imxrt_state) (command address length : Nat)
    (h : length ≤ 128) :
    (imxrt_spi_read s command address length).2 = s.regs.read_fifo.take length ∧
    (imxrt_spi_read s command address length).1.log =
      s.log ++
        ([flexspi_event.lutCapture s.regs.lut,
          flexspi_event.lutWrite (imxrt_spi_build_sequence command s.regs.ctrl1 length).1] ++
         (if command &&& IMXRT_SPI_FLASH_OPCODE_MODE_MASK = IMXRT_SPI_FLASH_OPCODE_3B_ADDR then
           [flexspi_event.regWrite IMXRT_FLEXSPI1_PRG_CTRL0 address] else []) ++
         [flexspi_event.regWrite IMXRT_FLEXSPI1_PRG_CTRL1 (length &&& 0xffff),
          flexspi_event.regWrite IMXRT_FLEXSPI1_PRG_CMD IMXRT_FLEXSPI1_PRG_RUN,
          flexspi_event.regWrite IMXRT_FLEXSPI1_INT IMXRT_FLEXSPI1_INT_PRG_CMD_DONE,
          flexspi_event.fifoRead 128,
          flexspi_event.bufferCopy length,
          flexspi_event.regWrite IMXRT_FLEXSPI1_INT IMXRT_FLEXSPI1_INT_READ_FIFO_FULL,
          flexspi_event.lutWrite s.regs.lut]) := by
  by_cases h3b : command &&& 0x10000 = 0x10000 <;>
  simp [imxrt_spi_read, imxrt_spi_configure_sequence, imxrt_spi_wait_complete,
    imxrt_spi_restore, flexspi_write32, flexspi_read32,
    IMXRT_FLEXSPI1_BASE, IMXRT_FLEXSPI1_MOD_CTRL0, IMXRT_FLEXSPI1_INT,
    IMXRT_FLEXSPI1_LUT_KEY, IMXRT_FLEXSPI1_LUT_CTRL, IMXRT_FLEXSPI1_CTRL1,
    IMXRT_FLEXSPI1_PRG_CTRL0, IMXRT_FLEXSPI1_PRG_CTRL1, IMXRT_FLEXSPI1_PRG_CMD,
    IMXRT_FLEXSPI1_PRG_READ_FIFO_CTRL, IMXRT_FLEXSPI1_PRG_WRITE_FIFO_CTRL,
    IMXRT_SPI_FLASH_OPCODE_MODE_MASK, IMXRT_SPI_FLASH_OPCODE_3B_ADDR,
    IMXRT_FLEXSPI1_PRG_RUN, IMXRT_FLEXSPI1_INT_PRG_CMD_DONE,
    IMXRT_FLEXSPI1_INT_READ_FIFO_FULL, IMXRT_FLEXSPI1_PRG_LUT_INDEX_0,
    IMXRT_FLEXSPI1_PRG_LENGTH, List.take_take, h3b, h, Nat.min_eq_left]

/-- Witness for C8: a 3-byte JEDEC ID read from the all-zero state delivers
the first 3 bytes of the FIFO window. -/
theorem imxrt_spi_read_contract_witness :
    (imxrt_spi_read imxrt_init_state SPI_FLASH_CMD_READ_JEDEC_ID 0 3).2 =
      imxrt_init_state.regs.read_fifo.take 3 :=
  (imxrt_spi_read_contract imxrt_init_state SPI_FLASH_CMD_READ_JEDEC_ID 0 3 (by decide)).1

/-! Helper lemmas shared by the probe and mass-erase theorems. -/

lemma imxrt_hw_respond_read_fifo (s : imxrt_state) (bytes : List Nat) :
    (imxrt_hw_respond s bytes).regs.read_fifo = (bytes ++ List.replicate 128 0).take 128 := rfl

lemma imxrt_spi_read_bytes (s : imxrt_state) (command address length : Nat) :
    (imxrt_spi_read s command address length).2 =
      (s.regs.read_fifo.take 128).take length := by
  by_cases h3b : command &&& 0x10000 = 0x10000 <;>
  simp [imxrt_spi_read, imxrt_spi_configure_sequence, imxrt_spi_wait_complete,
    flexspi_write32, IMXRT_FLEXSPI1_BASE, IMXRT_FLEXSPI1_MOD_CTRL0, IMXRT_FLEXSPI1_INT,
    IMXRT_FLEXSPI1_LUT_KEY, IMXRT_FLEXSPI1_LUT_CTRL, IMXRT_FLEXSPI1_CTRL1,
    IMXRT_FLEXSPI1_PRG_CTRL0, IMXRT_FLEXSPI1_PRG_CTRL1, IMXRT_FLEXSPI1_PRG_CMD,
    IMXRT_FLEXSPI1_PRG_READ_FIFO_CTRL, IMXRT_FLEXSPI1_PRG_WRITE_FIFO_CTRL,
    IMXRT_SPI_FLASH_OPCODE_MODE_MASK, IMXRT_SPI_FLASH_OPCODE_3B_ADDR, h3b]

lemma imxrt_spi_read_status_byte (s : imxrt_state) (byte : Nat) :
    (imxrt_spi_read_status (imxrt_hw_respond s [byte])).2 = byte := by
  simp [imxrt_spi_read_status, imxrt_spi_read_bytes, imxrt_hw_respond_read_fifo,
    List.take_take, List.take_replicate]

lemma imxrt_spi_read_guard_frame (s : imxrt_state) (command address length : Nat) :
    (imxrt_spi_read s command address length).1.regs.mod_ctrl0 = s.regs.mod_ctrl0 ∧
    (imxrt_spi_read s command address length).1.regs.lut_ctrl = s.regs.lut_ctrl ∧
    (imxrt_spi_read s command address length).1.priv.flexspi_module_state =
      s.priv.flexspi_module_state ∧
    (imxrt_spi_read s command address length).1.priv.flexspi_lut_state =
      s.priv.flexspi_lut_state ∧
    (imxrt_spi_read s command address length).1.log.count imxrt_run_event =
      s.log.count imxrt_run_event + 1 := by
  by_cases h3b : command &&& 0x10000 = 0x10000 <;>
  simp [imxrt_spi_read, imxrt_spi_configure_sequence, imxrt_spi_wait_complete,
    imxrt_spi_restore, flexspi_write32, imxrt_run_event,
    IMXRT_FLEXSPI1_BASE, IMXRT_FLEXSPI1_MOD_CTRL0, IMXRT_FLEXSPI1_INT,
    IMXRT_FLEXSPI1_LUT_KEY, IMXRT_FLEXSPI1_LUT_CTRL, IMXRT_FLEXSPI1_CTRL1,
    IMXRT_FLEXSPI1_PRG_CTRL0, IMXRT_FLEXSPI1_PRG_CTRL1, IMXRT_FLEXSPI1_PRG_CMD,
    IMXRT_FLEXSPI1_PRG_READ_FIFO_CTRL, IMXRT_FLEXSPI1_PRG_WRITE_FIFO_CTRL,
    IMXRT_SPI_FLASH_OPCODE_MODE_MASK, IMXRT_SPI_FLASH_OPCODE_3B_ADDR,
    IMXRT_FLEXSPI1_PRG_RUN, h3b]

lemma imxrt_spi_write_guard_frame (s : imxrt_state) (command address : Nat)
    (buffer : List Nat) (length : Nat) :
    (imxrt_spi_write s command address buffer length).regs.mod_ctrl0 = s.regs.mod_ctrl0 ∧
    (imxrt_spi_write s command address buffer length).regs.lut_ctrl = s.regs.lut_ctrl ∧
    (imxrt_spi_write s command address buffer length).priv.flexspi_module_state =
      s.priv.flexspi_module_state ∧
    (imxrt_spi_write s command address buffer length).priv.flexspi_lut_state =
      s.priv.flexspi_lut_state ∧
    (imxrt_spi_write s command address buffer length).log.count imxrt_run_event =
      s.log.count imxrt_run_event + 1 := by
  by_cases h3b : command &&& 0x10000 = 0x10000 <;>
  by_cases hl : length = 0 <;>
  simp [imxrt_spi_write, imxrt_spi_configure_sequence, imxrt_spi_wait_complete,
    imxrt_spi_restore, flexspi_write32, imxrt_run_event,
    IMXRT_FLEXSPI1_BASE, IMXRT_FLEXSPI1_MOD_CTRL0, IMXRT_FLEXSPI1_INT,
    IMXRT_FLEXSPI1_LUT_KEY, IMXRT_FLEXSPI1_LUT_CTRL, IMXRT_FLEXSPI1_CTRL1,
    IMXRT_FLEXSPI1_PRG_CTRL0, IMXRT_FLEXSPI1_PRG_CTRL1, IMXRT_FLEXSPI1_PRG_CMD,
    IMXRT_FLEXSPI1_PRG_READ_FIFO_CTRL, IMXRT_FLEXSPI1_PRG_WRITE_FIFO_CTRL,
    IMXRT_SPI_FLASH_OPCODE_MODE_MASK, IMXRT_SPI_FLASH_OPCODE_3B_ADDR,
    IMXRT_FLEXSPI1_PRG_RUN, IMXRT_FLEXSPI1_INT_WRITE_FIFO_EMPTY, h3b, hl]

lemma imxrt_hw_respond_guard_frame (s : imxrt_state) (bytes : List Nat) :
    (imxrt_hw_respond s bytes).regs.mod_ctrl0 = s.regs.mod_ctrl0 ∧
    (imxrt_hw_respond s bytes).regs.lut_ctrl = s.regs.lut_ctrl ∧
    (imxrt_hw_respond s bytes).priv = s.priv ∧
    (imxrt_hw_respond s bytes).log = s.log := by
  simp [imxrt_hw_respond]

lemma imxrt_spi_read_status_guard_frame (s : imxrt_state) :
    (imxrt_spi_read_status s).1.regs.mod_ctrl0 = s.regs.mod_ctrl0 ∧
    (imxrt_spi_read_status s).1.regs.lut_ctrl = s.regs.lut_ctrl ∧
    (imxrt_spi_read_status s).1.priv.flexspi_module_state = s.priv.flexspi_module_state ∧
    (imxrt_spi_read_status s).1.priv.flexspi_lut_state = s.priv.flexspi_lut_state ∧
    (imxrt_spi_read_status s).1.log.count imxrt_run_event =
      s.log.count imxrt_run_event + 1 := by
  simp [imxrt_spi_read_status, imxrt_spi_read_guard_frame]

lemma imxrt_enter_flash_mode_capture (s : imxrt_state) :
    (imxrt_enter_flash_mode s).1.priv.flexspi_module_state = s.regs.mod_ctrl0 ∧
    (imxrt_enter_flash_mode s).1.priv.flexspi_lut_state = s.regs.lut_ctrl ∧
    (imxrt_enter_flash_mode s).1.regs.lut_ctrl =
      (if s.regs.lut_ctrl = 2 then s.regs.lut_ctrl else 2) ∧
    (imxrt_enter_flash_mode s).1.log.count imxrt_run_event = s.log.count imxrt_run_event := by
  by_cases hsus : s.regs.mod_ctrl0 &&& 2 = 0 <;>
  by_cases hlock : s.regs.lut_ctrl = 2 <;>
  simp [imxrt_enter_flash_mode, flexspi_write32, flexspi_read32, imxrt_run_event,
    IMXRT_FLEXSPI1_BASE, IMXRT_FLEXSPI1_MOD_CTRL0, IMXRT_FLEXSPI1_INT,
    IMXRT_FLEXSPI1_LUT_KEY, IMXRT_FLEXSPI1_LUT_CTRL, IMXRT_FLEXSPI1_CTRL1,
    IMXRT_FLEXSPI1_PRG_CTRL0, IMXRT_FLEXSPI1_PRG_CTRL1, IMXRT_FLEXSPI1_PRG_CMD,
    IMXRT_FLEXSPI1_PRG_READ_FIFO_CTRL, IMXRT_FLEXSPI1_PRG_WRITE_FIFO_CTRL,
    IMXRT_FLEXSPI1_MOD_CTRL0_SUSPEND, IMXRT_FLEXSPI1_LUT_CTRL_UNLOCK,
    IMXRT_FLEXSPI1_LUT_KEY_VALUE, hsus, hlock]

lemma imxrt_exit_flash_mode_release (s : imxrt_state) :
    (imxrt_exit_flash_mode s).1.regs.mod_ctrl0 = s.priv.flexspi_module_state ∧
    (imxrt_exit_flash_mode s).1.regs.lut_ctrl =
      (if s.priv.flexspi_lut_state = 2 then s.regs.lut_ctrl else s.priv.flexspi_lut_state) ∧
    (imxrt_exit_flash_mode s).2 = true ∧
    (imxrt_exit_flash_mode s).1.log.count imxrt_run_event = s.log.count imxrt_run_event := by
  by_cases hlock : s.priv.flexspi_lut_state = 2 <;>
  simp [imxrt_exit_flash_mode, flexspi_write32, imxrt_run_event,
    IMXRT_FLEXSPI1_BASE, IMXRT_FLEXSPI1_MOD_CTRL0, IMXRT_FLEXSPI1_INT,
    IMXRT_FLEXSPI1_LUT_KEY, IMXRT_FLEXSPI1_LUT_CTRL, IMXRT_FLEXSPI1_CTRL1,
    IMXRT_FLEXSPI1_PRG_CTRL0, IMXRT_FLEXSPI1_PRG_CTRL1, IMXRT_FLEXSPI1_PRG_CMD,
    IMXRT_FLEXSPI1_PRG_READ_FIFO_CTRL, IMXRT_FLEXSPI1_PRG_WRITE_FIFO_CTRL,
    IMXRT_FLEXSPI1_LUT_CTRL_UNLOCK, IMXRT_FLEXSPI1_LUT_KEY_VALUE, hlock]

/-- C5 counterexample: the JEDEC ID bytes 0xEF, 0xFF, 0x16 are not all equal
to the 0xFF sentinel, yet probing with them (serial NOR boot source, matching
part id) requests no flash region while still reporting success — so a flash
region is not requested whenever the three bytes are merely not all 0xFF. -/
theorem imxrt_probe_not_all_ff_counterexample :
    (¬(0xef = 0xff ∧ 0xff = 0xff ∧ 0x16 = 0xff)) ∧
    (imxrt_probe imxrt_init_state 0x88c 0 [0xef, 0xff, 0x16]).2.2 = none ∧
    (imxrt_probe imxrt_init_state 0x88c 0 [0xef, 0xff, 0x16]).2.1 = true := by
  refine ⟨by decide, by decide, by decide⟩

/-- C5 amended: during probe with a serial NOR or serial NAND boot source,
after reading the JEDEC ID a flash region is requested with fallback capacity
1 shifted left by the capacity exponent (truncated to 32 bits) exactly when
each of the three JEDEC ID bytes differs from the 0xFF sentinel; when any
byte equals 0xFF (in particular the all-0xFF ID) no flash region is
registered, and probe reports success in either case. -/
theorem imxrt_probe_flash_region (s : imxrt_state) (boot_cfg mfr typ cap : Nat)
    (h : imxrt_boot_source boot_cfg = boot_spi_flash_nor ∨
      imxrt_boot_source boot_cfg = boot_spi_flash_nand) :
    (imxrt_probe s 0x88c boot_cfg [mfr, typ, cap]).2.1 = true ∧
    (imxrt_probe s 0x88c boot_cfg [mfr, typ, cap]).2.2 =
      (if mfr ≠ 0xff ∧ typ ≠ 0xff ∧ cap ≠ 0xff then some ((1 <<< cap) % 2 ^ 32)
       else none) := by
  simp [imxrt_probe, imxrt_spi_read_bytes, imxrt_hw_respond_read_fifo, h,
    List.take_take, List.take_append]

/-- Witness for C5 amended: probing with boot configuration 0 (serial NOR)
and JEDEC ID bytes 0xEF, 0x40, 0x16 claims the target and requests a flash
region with fallback capacity 4 MiB. -/
theorem imxrt_probe_flash_region_witness :
    (imxrt_probe imxrt_init_state 0x88c 0 [0xef, 0x40, 0x16]).2.1 = true ∧
    (imxrt_probe imxrt_init_state 0x88c 0 [0xef, 0x40, 0x16]).2.2 =
      (if (0xef : Nat) ≠ 0xff ∧ (0x40 : Nat) ≠ 0xff ∧ (0x16 : Nat) ≠ 0xff then
        some ((1 <<< 0x16) % 2 ^ 32) else none) :=
  imxrt_probe_flash_region imxrt_init_state 0 0xef 0x40 0x16 (Or.inl (by decide))

/-- C6: if the status byte read immediately after issuing Write Enable has
the write-enabled bit clear, mass erase returns failure after exiting
guarded mode, restoring the module-control and lock registers to their
values at entry, and runs exactly two sequencer commands (the Write Enable
and the status read) — no retry of the write-enable is attempted. -/
theorem imxrt_spi_mass_erase_abort (s : imxrt_state) (statuses : Nat → Nat) (fuel : Nat)
    (h : statuses 0 &&& SPI_FLASH_STATUS_WRITE_ENABLED = 0) :
    (imxrt_spi_mass_erase s statuses fuel).map (fun r => r.2) = some false ∧
    (imxrt_spi_mass_erase s statuses fuel).map (fun r => r.1.regs.mod_ctrl0) =
      some s.regs.mod_ctrl0 ∧
    (imxrt_spi_mass_erase s statuses fuel).map (fun r => r.1.regs.lut_ctrl) =
      some s.regs.lut_ctrl ∧
    (imxrt_spi_mass_erase s statuses fuel).map
        (fun r => r.1.log.count imxrt_run_event) =
      some (s.log.count imxrt_run_event + 2) := by
  simp only [SPI_FLASH_STATUS_WRITE_ENABLED] at h
  by_cases hlock : s.regs.lut_ctrl = 2 <;>
  simp [imxrt_spi_mass_erase, imxrt_spi_run_command, imxrt_spi_read_status_byte,
    imxrt_spi_read_status_guard_frame, imxrt_spi_write_guard_frame,
    imxrt_hw_respond_guard_frame, imxrt_enter_flash_mode_capture,
    imxrt_exit_flash_mode_release, SPI_FLASH_STATUS_WRITE_ENABLED, h, hlock]

/-- Witness for C6: from the all-zero state, with the flash always answering
status 0, mass erase reports failure. -/
theorem imxrt_spi_mass_erase_abort_witness :
    (imxrt_spi_mass_erase imxrt_init_state (fun _ => 0) 0).map (fun r => r.2) =
      some false :=
  (imxrt_spi_mass_erase_abort imxrt_init_state (fun _ => 0) 0 (by decide)).1

/-- C10: whenever the busy polls terminate (the orchestrator returns a
result), mass erase returns true if and only if the status byte read after
Write Enable has the write-enabled bit set: the chip-erase busy poll can
never turn the result into failure, because the success-path return value is
that of exit-guarded-mode, which always returns true. -/
theorem imxrt_spi_mass_erase_result_iff (s : imxrt_state) (statuses : Nat → Nat)
    (fuel : Nat) (h : (imxrt_spi_mass_erase s statuses fuel).isSome) :
    ((imxrt_spi_mass_erase s statuses fuel).map (fun r => r.2) = some true ↔
      statuses 0 &&& SPI_FLASH_STATUS_WRITE_ENABLED ≠ 0) := by
  by_cases hwe : statuses 0 &&& 2 = 0
  · simp [imxrt_spi_mass_erase, imxrt_spi_run_command, imxrt_spi_read_status_byte,
      SPI_FLASH_STATUS_WRITE_ENABLED, hwe]
  · unfold imxrt_spi_mass_erase at h ⊢
    simp only [imxrt_spi_run_command, imxrt_spi_read_status_byte,
      SPI_FLASH_STATUS_WRITE_ENABLED] at h ⊢
    rw [if_neg hwe] at h ⊢
    split at h
    · simp at h
    · simp [imxrt_exit_flash_mode_release, hwe]

/-- Witness for C10: from the all-zero state, with the flash answering
status 2 (write enabled) to the first read and 0 (idle) afterwards, mass
erase terminates within one poll iteration and reports success. -/
theorem imxrt_spi_mass_erase_result_iff_witness :
    (imxrt_spi_mass_erase imxrt_init_state (fun i => if i = 0 then 2 else 0) 1).map
        (fun r => r.2) =
      some true :=
  (imxrt_spi_mass_erase_result_iff imxrt_init_state (fun i => if i = 0 then 2 else 0) 1
      (by decide)).2 (by decide)

end Imxrt
